import Mathlib

/-!
Shallow embedding of the mirrorlist repository (stevemeier/mirrorlist):
the frontend `mirrorlist/main.go` (mirror selection, response cache) and the
backend `mirrorlist_updater.go` (scheduler / probe / committer pipeline).
Database queries are modelled as pure functions over in-memory relations;
the SQL random tie-breakers are passed in as explicit parameters.
-/

/-- Row of the `mirrors` table (lib/structs.go `Mirror`, protocol flags and
coordinates omitted: no embedded operation reads them). -/
structure Mirror where
  mirror_id : Nat
  name : String
  basedir : String
  basedir_altarch : String
  ipv4 : Nat
  ipv6 : Nat
  enabled : Bool
  continent : String
  country : String
  region : String
deriving DecidableEq

/-- Row of the `repos` table (lib/structs.go `Repo`). -/
structure Repo where
  repo_id : Int
  major_release : Int
  path : String
  name : String
  arch : String
  is_altarch : Bool
  enabled : Bool
deriving DecidableEq

/-- Row of the `status` table (lib/functions.go `InitDatabase`). -/
structure StatusRow where
  mirror_id : Nat
  repo_id : Int
  timestamp : Int
  checked : Int
  result : Int
deriving DecidableEq

/-- The three relations of the shared database. -/
structure DB where
  mirrors : List Mirror
  repos : List Repo
  status : List StatusRow
deriving DecidableEq

/-- Client location (lib/structs.go `Location`; float coordinates omitted,
unused by the embedded operations). -/
structure Location where
  known : Bool
  continent : String
  country : String
  region : String
deriving DecidableEq

/-- lib/structs.go `CheckTask`. -/
structure CheckTask where
  mirror_id : Nat
  repo_id : Int
  url : String
  iso : Bool
  altarch : Bool
  valid : Bool
deriving DecidableEq

/-- lib/structs.go `CheckResult`. -/
structure CheckResult where
  mirror_id : Nat
  repo_id : Int
  timestamp : Int
  result : Int
deriving DecidableEq

/-- Decimal digit test, Go regexp `\d`. -/
def isDigitChar (c : Char) : Bool := '0' ≤ c && c ≤ '9'

/-- Value of a list of decimal digits. -/
def digitsToNat (l : List Char) : Nat :=
  l.foldl (fun a c => a * 10 + (c.toNat - 48)) 0

/-- Go `strconv.ParseInt(s, 10, 64)` on an all-digit string: the value, or
an overflow error (`none`) when it exceeds the int64 range. -/
def parse_int64 (l : List Char) : Option Int :=
  if digitsToNat l ≤ 9223372036854775807 then some (Int.ofNat (digitsToNat l)) else none

/-- Match of the regexp `<timestamp>(\d+)<\/timestamp>` at the head of the
input: the captured digit run, or `none`. -/
def ts_match_at (l : List Char) : Option (List Char) :=
  if ("<timestamp>").data.isPrefixOf l then
    let rest := l.drop 11
    let ds := rest.takeWhile isDigitChar
    if ds ≠ [] && ("</timestamp>").data.isPrefixOf (rest.drop ds.length) then some ds
    else none
  else none

/-- Leftmost match of `<timestamp>(\d+)<\/timestamp>`: the capture group of
Go `regexp.FindStringSubmatch` (mirrorlist_updater.go line 234). -/
def find_ts : List Char → Option (List Char)
  | [] => none
  | c :: rest =>
    match ts_match_at (c :: rest) with
    | some ds => some ds
    | none => find_ts rest

/-- mirrorlist_updater.go lines 229-245 (`repository_timestamp` after a
transport-error-free HTTP exchange): classify the response status code and
body into `(timestamp, outcome)`. -/
def repository_timestamp_response (statusCode : Int) (body : String) : Int × Int :=
  if statusCode ≠ 200 then (0, statusCode)
  else
    match find_ts body.data with
    | some ds =>
      match parse_int64 ds with
      | some v => (v, statusCode)
      | none => (0, statusCode)
    | none => (0, -4)

/-- mirrorlist_updater.go lines 185-201 (`iso_timestamp`): any reachable
response to either checksum fetch counts as success. -/
def iso_timestamp (now : Int) (reach1 reach2 : Bool) : Int × Int :=
  if reach1 then (now, 200) else if reach2 then (now, 200) else (0, 404)

/-- mirrorlist_updater.go lines 248-270 (`execute_test`): skip invalid tasks,
pick the probe strategy, emit one CheckResult. The HTTP outcome of the probe
is supplied by the `statusCode`/`body` (repository strategy) and
`reach1`/`reach2` (ISO strategy) parameters. -/
def execute_test (task : CheckTask) (now statusCode : Int) (body : String)
    (reach1 reach2 : Bool) : Option CheckResult :=
  if task.valid = false then none
  else
    let tr := if task.iso then iso_timestamp now reach1 reach2
              else repository_timestamp_response statusCode body
    some { mirror_id := task.mirror_id, repo_id := task.repo_id,
           timestamp := tr.1, result := tr.2 }

/-- mirrorlist_updater.go lines 169-183 (`update_mirror_status`):
`UPDATE status SET timestamp = ?, checked = ?, result = ? WHERE ...` applied
to the matching row. -/
def update_mirror_status (row : StatusRow) (cr : CheckResult) (now : Int) : StatusRow :=
  { row with timestamp := cr.timestamp, checked := now, result := cr.result }

/-- Capacity of `resultchan` (mirrorlist_updater.go line 22). -/
def resultchan_cap : Nat := 20

/-- State of a Go channel: currently buffered values and whether it has been
closed. -/
structure ResultChan where
  buf : List CheckResult
  closed : Bool
deriving DecidableEq

/-- Semantics of Go `for result := range resultchan`: the loop yields the
buffered values and terminates only once the channel is closed; on an open
channel it blocks waiting for more sends (`none` = the loop never ends,
assuming no further sends arrive). -/
def range_drain (c : ResultChan) : Option (List CheckResult) :=
  if c.closed then some c.buf else none

/-- mirrorlist_updater.go lines 72-84, one committer iteration: when the
result queue is at least half full, begin a transaction, range over the
channel, then commit. `some batch` = the iteration commits `batch`;
`none` = the drain never terminates and the commit is unreachable;
`some []` = threshold not reached, nothing done this tick. -/
def committer_tick (c : ResultChan) : Option (List CheckResult) :=
  if resultchan_cap / 2 ≤ c.buf.length then range_drain c else some []

/-- mirrorlist_updater.go never calls `close` on `resultchan`: no close
appears anywhere in the source. -/
def resultchan_closed_by_main : Bool := false

/-- Substring test, Go regexp `isos` via `MatchString` (matches anywhere). -/
def hasSubChars (needle : List Char) : List Char → Bool
  | [] => needle.isEmpty
  | c :: rest => needle.isPrefixOf (c :: rest) || hasSubChars needle rest

/-- String wrapper for `hasSubChars`. -/
def hasSub (needle s : String) : Bool := hasSubChars needle.data s.data

/-- Joined row produced by the scheduler query of find_next_check
(mirrorlist_updater.go lines 108-113): status JOIN mirrors JOIN repos. -/
structure NextRow where
  mirror : Mirror
  repo : Repo
  srow : StatusRow
deriving DecidableEq

/-- Ascending order on `status.checked` (ORDER BY status.checked ASC). -/
def checkedLE (a b : NextRow) : Prop := a.srow.checked ≤ b.srow.checked

instance : DecidableRel checkedLE := fun a b => Int.decLe a.srow.checked b.srow.checked

instance : IsTotal NextRow checkedLE := ⟨fun a b => Int.le_total a.srow.checked b.srow.checked⟩

instance : IsTrans NextRow checkedLE := ⟨fun _ _ _ hab hbc => le_trans hab hbc⟩

/-- Join and filter of the scheduler query (mirrorlist_updater.go lines
108-113): status JOIN mirrors JOIN repos,
`WHERE checked < (now - (rescan + jitter)) AND repos.enabled > 0`. The join
is modelled through first-match lookup of the parent rows. -/
def next_joined (db : DB) (now rescan jitter : Int) : List NextRow :=
  db.status.filterMap (fun s =>
    match db.mirrors.find? (fun m => m.mirror_id == s.mirror_id),
          db.repos.find? (fun r => r.repo_id == s.repo_id) with
    | some m, some r =>
      if s.checked < now - (rescan + jitter) && r.enabled then some ⟨m, r, s⟩ else none
    | _, _ => none)

/-- mirrorlist_updater.go lines 108-128: the joined rows ordered by
`status.checked ASC`, limited to `limit`. -/
def find_next_rows (db : DB) (now rescan jitter : Int) (limit : Nat) : List NextRow :=
  (List.insertionSort checkedLE (next_joined db now rescan jitter)).take limit

/-- mirrorlist_updater.go lines 141-163: build one CheckTask from a joined
row (`/os` appended for release 8 non-iso repos, altarch basedir choice). -/
def task_of_row (x : NextRow) : CheckTask :=
  let isiso := hasSub ("isos") x.repo.name
  let arch1 := if x.repo.major_release == 8 && !isiso then x.repo.arch ++ ("/os") else x.repo.arch
  let dir := if x.repo.is_altarch then x.mirror.basedir_altarch else x.mirror.basedir
  { mirror_id := x.mirror.mirror_id, repo_id := x.srow.repo_id,
    url := ("http://") ++ x.mirror.name ++ dir ++ ("/") ++ x.repo.path ++ ("/")
            ++ x.repo.name ++ ("/") ++ arch1,
    iso := isiso, altarch := x.repo.is_altarch, valid := true }

/-- mirrorlist_updater.go lines 91-167 (`find_next_check`). -/
def find_next_check (db : DB) (now rescan jitter : Int) (limit : Nat) : List CheckTask :=
  (find_next_rows db now rescan jitter limit).map task_of_row

/-- mirrorlist_updater.go lines 50-60, one scheduler tick: refill the task
queue only when it is currently empty. -/
def scheduler_tick (queue_len : Nat) (db : DB) (now rescan jitter : Int)
    (limit : Nat) : List CheckTask :=
  if queue_len == 0 then find_next_check db now rescan jitter limit else []

/-- Word character, Go regexp `\w` = [0-9A-Za-z_]. -/
def isWordChar (c : Char) : Bool := c.isAlphanum || c == '_'

/-- Fuel-driven scan implementing `regexp.ReplaceAllString` of `(\w)\/+` by
`$1/` (mirrorlist/main.go lines 905-906): after a word character, a run of
slashes collapses to a single slash. -/
def collapseGo : Nat → List Char → List Char
  | 0, l => l
  | _ + 1, [] => []
  | fuel + 1, c :: rest =>
    if isWordChar c && rest.head? == some '/' then
      c :: '/' :: collapseGo fuel (rest.dropWhile (fun d => d == '/'))
    else c :: collapseGo fuel rest

/-- Collapse duplicate path separators in a string. -/
def collapseStr (s : String) : String := ⟨collapseGo s.data.length s.data⟩

/-- mirrorlist/main.go lines 828-840 (`get_repo_id`): first enabled repo row
matching (major_release, name, arch); `(-1, empty, false)` when absent. The
SQL comparison of the integer `major_release` column with the text `release`
parameter is modelled by numeric affinity on all-digit text. -/
def sql_int_of_text (s : String) : Option Int :=
  if s.data ≠ [] && s.data.all isDigitChar then some (Int.ofNat (digitsToNat s.data)) else none

/-- mirrorlist/main.go `get_repo_id`. -/
def get_repo_id (db : DB) (release repo arch : String) : Int × String × Bool :=
  match db.repos.find? (fun r =>
      r.enabled && sql_int_of_text release == some r.major_release
        && r.name == repo && r.arch == arch) with
  | some r => (r.repo_id, r.path, r.is_altarch)
  | none => (-1, (""), false)

/-- Descending order on `status.timestamp` (ORDER BY status.timestamp DESC;
the SQL random tie-break is modelled as the incoming row order). -/
def tsGE (a b : StatusRow) : Prop := b.timestamp ≤ a.timestamp

instance : DecidableRel tsGE := fun a b => Int.decLe b.timestamp a.timestamp

/-- Join and filter of the mirrors_with_repo query (mirrorlist/main.go
lines 847-849): status rows of the repo whose mirror is enabled. -/
def mwr_joined (db : DB) (repoid : Int) : List StatusRow :=
  db.status.filter (fun s =>
    s.repo_id == repoid && db.mirrors.any (fun m => m.mirror_id == s.mirror_id && m.enabled))

/-- mirrorlist/main.go lines 842-868 (`mirrors_with_repo`): ids of enabled
mirrors holding a status row for the repo, freshest content first. -/
def mirrors_with_repo (db : DB) (repoid : Int) : List Nat :=
  (List.insertionSort tsGE (mwr_joined db repoid)).map (·.mirror_id)

/-- IP-version support filter: the query column `ipv4`/`ipv6` selected by the
`ipversion` string ("4" or "6"). -/
def ipvOK (ipversion : String) (m : Mirror) : Bool :=
  if ipversion == ("6") then 0 < m.ipv6 else 0 < m.ipv4

/-- Tier-3 predicate of nearby_mirrors (continent match, IP version,
enabled; mirrorlist/main.go lines 326-327). -/
def tier3cond (loc : Location) (ipversion : String) (m : Mirror) : Bool :=
  m.continent == loc.continent && ipvOK ipversion m && m.enabled

/-- Tier-2 predicate (adds country; lines 328-329). -/
def tier2cond (loc : Location) (ipversion : String) (m : Mirror) : Bool :=
  m.continent == loc.continent && m.country == loc.country && ipvOK ipversion m && m.enabled

/-- Tier-1 predicate (adds region; lines 330-331). -/
def tier1cond (loc : Location) (ipversion : String) (m : Mirror) : Bool :=
  m.continent == loc.continent && m.country == loc.country && m.region == loc.region
    && ipvOK ipversion m && m.enabled

/-- One row of the UNION in nearby_mirrors: mirror id, tier priority and the
per-row SQL random value. -/
structure TierRow where
  mid : Nat
  prio : Nat
  rand : Int
deriving DecidableEq

/-- ORDER BY prio, rand ASC. -/
def rowLE (a b : TierRow) : Prop := a.prio < b.prio ∨ (a.prio = b.prio ∧ a.rand ≤ b.rand)

instance : DecidableRel rowLE := fun a b =>
  inferInstanceAs (Decidable (a.prio < b.prio ∨ (a.prio = b.prio ∧ a.rand ≤ b.rand)))

instance : IsTotal TierRow rowLE := ⟨fun a b => by
  unfold rowLE
  rcases Nat.lt_trichotomy a.prio b.prio with h | h | h
  · exact Or.inl (Or.inl h)
  · rcases Int.le_total a.rand b.rand with hr | hr
    · exact Or.inl (Or.inr ⟨h, hr⟩)
    · exact Or.inr (Or.inr ⟨h.symm, hr⟩)
  · exact Or.inr (Or.inl h)⟩

instance : IsTrans TierRow rowLE := ⟨fun a b c hab hbc => by
  unfold rowLE at hab hbc ⊢
  rcases hab with h1 | ⟨h1, h1r⟩ <;> rcases hbc with h2 | ⟨h2, h2r⟩
  · exact Or.inl (lt_trans h1 h2)
  · exact Or.inl (h2 ▸ h1)
  · exact Or.inl (h1 ▸ h2)
  · exact Or.inr ⟨h1.trans h2, le_trans h1r h2r⟩⟩

/-- The UNION of the three tier SELECTs of nearby_mirrors
(mirrorlist/main.go lines 324-337) over the candidate mirror ids. -/
def tier_rows (db : DB) (loc : Location) (ipversion : String) (mirrors : List Nat)
    (rand : Nat → Nat → Int) : List TierRow :=
  let elig := db.mirrors.filter (fun m => mirrors.contains m.mirror_id)
  ((elig.filter (fun m => tier1cond loc ipversion m)).map
      (fun m => TierRow.mk m.mirror_id 1 (rand 1 m.mirror_id)))
    ++ ((elig.filter (fun m => tier2cond loc ipversion m)).map
      (fun m => TierRow.mk m.mirror_id 2 (rand 2 m.mirror_id)))
    ++ ((elig.filter (fun m => tier3cond loc ipversion m)).map
      (fun m => TierRow.mk m.mirror_id 3 (rand 3 m.mirror_id)))

/-- mirrorlist/main.go lines 318-360 (`nearby_mirrors`): sort the tier union
by (prio, rand), take `limit`, project the mirror ids. -/
def nearby_mirrors (db : DB) (loc : Location) (ipversion : String) (mirrors : List Nat)
    (limit : Nat) (rand : Nat → Nat → Int) : List Nat :=
  ((List.insertionSort rowLE (tier_rows db loc ipversion mirrors rand)).take limit).map
    TierRow.mid

/-- Mirror rows fetched by full_mirror_urls through
`SELECT ... WHERE mirror_id IN (?)` (table order, not input order). -/
def mirror_rows (db : DB) (mirrors : List Nat) : List Mirror :=
  db.mirrors.filter (fun m => mirrors.contains m.mirror_id)

/-- Release string begins with the character 7 (Go regexp `^7`). -/
def starts7 (s : String) : Bool := s.data.head? == some '7'

/-- Release string begins with the character 8 (Go regexp `^8`). -/
def starts8 (s : String) : Bool := s.data.head? == some '8'

/-- URL prefix common to both release families
(mirrorlist/main.go lines 899-900). -/
def url_line (name dir release repo arch : String) : String :=
  ("http://") ++ name ++ ("/") ++ dir ++ ("/") ++ release ++ ("/") ++ repo ++ ("/") ++ arch

/-- mirrorlist/main.go lines 870-910 (`full_mirror_urls`): one line per
fetched mirror whose release matches `^7` or `^8` (with `/os` for the
latter), then duplicate-separator collapsing over the whole body. -/
def full_mirror_urls (db : DB) (mirrors : List Nat) (release repo arch : String)
    (is_altarch : Bool) : String :=
  let raw := (mirror_rows db mirrors).foldl (fun acc m =>
    let directory := if is_altarch then m.basedir_altarch else m.basedir
    let acc1 := if starts7 release then
        acc ++ url_line m.name directory release repo arch ++ ("/") ++ ("\n")
      else acc
    if starts8 release then
        acc1 ++ url_line m.name directory release repo arch ++ ("/os/") ++ ("\n")
      else acc1) ("")
  collapseStr raw

/-- Cache key of mirrorlist/main.go lines 260 and 309:
`fmt.Sprintf` of repo id and location fields with no separator. -/
def cachekey (repoid : Int) (ipversion continent country region : String) : String :=
  toString repoid ++ ipversion ++ continent ++ country ++ region

/-- freecache `Get`: first live entry under the key. -/
def cache_get (cache : List (String × String)) (key : String) : Option String :=
  (cache.find? (fun kv => kv.1 == key)).map (·.2)

/-- Outcome of one frontend request (mirrorlist/main.go `http_handler_root`):
HTTP status and body, the cache afterwards, how many cache lookups ran,
which mirror ids were passed to URL rendering (`none` when rendering was
not reached), the rendered body (`none` likewise) and the performed cache
store (key, body, TTL). -/
structure HandlerOut where
  status : Nat
  body : String
  cache2 : List (String × String)
  lookups : Nat
  selected : Option (List Nat)
  rendered : Option String
  stored : Option (String × String × Nat)
deriving DecidableEq

/-- Early-exit response carrying no cache activity. -/
def handler_error (status : Nat) (body : String) (cache : List (String × String)) :
    HandlerOut :=
  { status := status, body := body, cache2 := cache, lookups := 0,
    selected := none, rendered := none, stored := none }

/-- Mirror id list passed to URL rendering (mirrorlist/main.go lines
280-285): the full candidate list when it fits the configured size,
otherwise the geo-narrowed list. -/
def selected_mirrors (db : DB) (listsize : Nat) (repoid : Int) (loc : Location)
    (ipversion : String) (rand : Nat → Nat → Int) : List Nat :=
  if listsize < (mirrors_with_repo db repoid).length then
    nearby_mirrors db loc ipversion (mirrors_with_repo db repoid) listsize rand
  else mirrors_with_repo db repoid

/-- The response body rendered for a request (mirrorlist/main.go
lines 297-301). -/
def rendered_response (db : DB) (listsize : Nat) (repoid : Int)
    (repopath repo arch : String) (is_altarch : Bool) (loc : Location)
    (ipversion : String) (rand : Nat → Nat → Int) : String :=
  full_mirror_urls db (selected_mirrors db listsize repoid loc ipversion rand)
    repopath repo arch is_altarch

/-- mirrorlist/main.go lines 271-316: the part of http_handler_root after the
cache check: mirror fetch, narrowing, rendering, conditional cache store. -/
def render_and_store (db : DB) (caching : Bool) (listsize : Nat)
    (cache : List (String × String)) (lookups : Nat) (repoid : Int)
    (repopath repo arch : String) (is_altarch : Bool) (key : String)
    (loc : Location) (ipversion : String) (rand : Nat → Nat → Int) : HandlerOut :=
  if mirrors_with_repo db repoid = [] then
    { status := 404, body := (""), cache2 := cache, lookups := lookups,
      selected := none, rendered := none, stored := none }
  else if caching
      && rendered_response db listsize repoid repopath repo arch is_altarch loc ipversion rand
        ≠ ("") then
    { status := 200,
      body := rendered_response db listsize repoid repopath repo arch is_altarch loc ipversion rand,
      cache2 := (key, rendered_response db listsize repoid repopath repo arch is_altarch loc ipversion rand) :: cache,
      lookups := lookups,
      selected := some (selected_mirrors db listsize repoid loc ipversion rand),
      rendered := some (rendered_response db listsize repoid repopath repo arch is_altarch loc ipversion rand),
      stored := some (key, rendered_response db listsize repoid repopath repo arch is_altarch loc ipversion rand, 3600) }
  else
    { status := 200,
      body := rendered_response db listsize repoid repopath repo arch is_altarch loc ipversion rand,
      cache2 := cache, lookups := lookups,
      selected := some (selected_mirrors db listsize repoid loc ipversion rand),
      rendered := some (rendered_response db listsize repoid repopath repo arch is_altarch loc ipversion rand),
      stored := none }

/-- Cache key of the request (mirrorlist/main.go lines 260 and 309). -/
def request_key (db : DB) (release repo arch ipversion : String) (loc : Location) : String :=
  cachekey (get_repo_id db release repo arch).1 ipversion loc.continent loc.country loc.region

/-- mirrorlist/main.go lines 209-316 (`http_handler_root`): parameter
validation, repo resolution, cache lookup, then `render_and_store`.
The client ip is abstracted into its derived `ipversion` and resolved
`loc`; `rand` supplies the SQL per-row random values. -/
def http_handler_root (db : DB) (caching : Bool) (listsize : Nat)
    (cache : List (String × String)) (arch release repo ipversion : String)
    (loc : Location) (rand : Nat → Nat → Int) : HandlerOut :=
  if arch = ("") then handler_error 400 ("arch not specified\n") cache
  else if release = ("") then handler_error 400 ("release not specified\n") cache
  else if repo = ("") then handler_error 400 ("repo not specified\n") cache
  else if (get_repo_id db release repo arch).1 ≤ 0 then
    handler_error 404 ("Invalid release/repo/arch combination\n") cache
  else if caching then
    match cache_get cache (request_key db release repo arch ipversion loc) with
    | some b =>
      { status := 200, body := b, cache2 := cache, lookups := 1,
        selected := none, rendered := none, stored := none }
    | none => render_and_store db caching listsize cache 1
        (get_repo_id db release repo arch).1 (get_repo_id db release repo arch).2.1
        repo arch (get_repo_id db release repo arch).2.2
        (request_key db release repo arch ipversion loc) loc ipversion rand
  else render_and_store db caching listsize cache 0
      (get_repo_id db release repo arch).1 (get_repo_id db release repo arch).2.1
      repo arch (get_repo_id db release repo arch).2.2
      (request_key db release repo arch ipversion loc) loc ipversion rand

/-- Example database: one enabled release-8 repo, no mirrors, no status. -/
def db4 : DB := ⟨[], [⟨1, 8, ("8"), ("BaseOS"), ("x86_64"), false, true⟩], []⟩

/-- Example database: one enabled mirror, one enabled release-8 repo whose
`path` column does not begin with 7 or 8. -/
def db6 : DB :=
  ⟨[⟨1, ("m.example.org"), ("/pub"), (""), 1, 1, true, ("EU"), ("DE"), ("BY")⟩],
   [⟨1, 8, ("centos8"), ("BaseOS"), ("x86_64"), false, true⟩],
   [⟨1, 1, 1700, 100, 200⟩]⟩

/-- Example mirror for URL rendering. -/
def m6 : Mirror := ⟨1, ("m.example.org"), ("/pub"), (""), 1, 1, true, ("EU"), ("DE"), ("BY")⟩

/-- Example database holding only `m6`. -/
def db6b : DB := ⟨[m6], [], []⟩

/-- Example database: one enabled mirror with a status row for one enabled
release-8 repo. -/
def db7 : DB :=
  ⟨[⟨1, ("m.example.org"), ("/pub"), (""), 1, 1, true, ("EU"), ("DE"), ("BY")⟩],
   [⟨1, 8, ("8"), ("BaseOS"), ("x86_64"), false, true⟩],
   [⟨1, 1, 1700, 100, 200⟩]⟩

/-- Example database for the cache-key collision run (same layout as db7). -/
def db10 : DB :=
  ⟨[⟨1, ("m.example.org"), ("/pub"), (""), 1, 1, true, ("EU"), ("DE"), ("BY")⟩],
   [⟨1, 8, ("8"), ("BaseOS"), ("x86_64"), false, true⟩],
   [⟨1, 1, 1700, 100, 200⟩]⟩

/-- Client located with country US and empty region. -/
def loc10a : Location := ⟨true, ("EU"), ("US"), ("")⟩

/-- Client located with empty country and region US. -/
def loc10b : Location := ⟨true, ("EU"), (""), ("US")⟩

/-- Example database: mirror 1 matches a Bavarian client at tier 1, mirror 2
(France, no region) only at tier 3. -/
def db5 : DB :=
  ⟨[⟨1, ("a.example.org"), ("/pub"), (""), 1, 0, true, ("EU"), ("DE"), ("BY")⟩,
    ⟨2, ("b.example.org"), ("/pub"), (""), 1, 0, true, ("EU"), ("FR"), ("")⟩],
   [], []⟩

/-- Bavarian client location. -/
def loc5 : Location := ⟨true, ("EU"), ("DE"), ("BY")⟩

/-- The tier-1 mirror of db5. -/
def mx5 : Mirror := ⟨1, ("a.example.org"), ("/pub"), (""), 1, 0, true, ("EU"), ("DE"), ("BY")⟩

/-- The tier-3-only mirror of db5. -/
def my5 : Mirror := ⟨2, ("b.example.org"), ("/pub"), (""), 1, 0, true, ("EU"), ("FR"), ("")⟩

/-! Theorems for the claims. -/

/-- C1 (amended): after a probe of a valid non-ISO task whose mirror answers
HTTP 404 for repomd.xml, the committed Status row has result = 404,
checked = now, and its timestamp field overwritten with the probe's
timestamp value 0 — it is not preserved from the prior successful check. -/
theorem c1_amended (row : StatusRow) (t : CheckTask) (now pnow : Int) (body : String)
    (r1 r2 : Bool) (hv : t.valid = true) (hi : t.iso = false) :
    execute_test t pnow 404 body r1 r2 = some ⟨t.mirror_id, t.repo_id, 0, 404⟩ ∧
    update_mirror_status row ⟨t.mirror_id, t.repo_id, 0, 404⟩ now =
      { row with timestamp := 0, checked := now, result := 404 } := by
  constructor
  · simp [execute_test, hv, hi, repository_timestamp_response]
  · rfl

/-- C1 (counterexample to the claim as stated): a concrete Status row with a
prior successful timestamp 1700000000; after a 404 probe the committed row
has result 404 but timestamp 0, so the timestamp field is changed. -/
theorem c1_counterexample :
    execute_test ⟨1, 1, ("http://m.example.org/pub/8/BaseOS/x86_64/os"), false, false, true⟩
        0 404 ("") false false = some ⟨1, 1, 0, 404⟩
    ∧ update_mirror_status ⟨1, 1, 1700000000, 1600000000, 200⟩ ⟨1, 1, 0, 404⟩ 1700001000
        = ⟨1, 1, 0, 1700001000, 404⟩
    ∧ (update_mirror_status ⟨1, 1, 1700000000, 1600000000, 200⟩ ⟨1, 1, 0, 404⟩
        1700001000).timestamp
      ≠ (⟨1, 1, 1700000000, 1600000000, 200⟩ : StatusRow).timestamp := by
  refine ⟨by decide, by decide, by decide⟩

/-- C1 witness: the amended theorem applied at a concrete task and row. -/
theorem c1_witness :
    (⟨1, 1, ("http://m.example.org/pub/7/os/x86_64"), false, false, true⟩ : CheckTask).valid = true
    ∧ (⟨1, 1, ("http://m.example.org/pub/7/os/x86_64"), false, false, true⟩ : CheckTask).iso = false
    ∧ (execute_test ⟨1, 1, ("http://m.example.org/pub/7/os/x86_64"), false, false, true⟩
          5 404 ("") false false = some ⟨1, 1, 0, 404⟩
      ∧ update_mirror_status ⟨9, 9, 123, 45, 200⟩ ⟨1, 1, 0, 404⟩ 777
          = { (⟨9, 9, 123, 45, 200⟩ : StatusRow) with timestamp := 0, checked := 777, result := 404 }) :=
  ⟨rfl, rfl,
    c1_amended ⟨9, 9, 123, 45, 200⟩
      ⟨1, 1, ("http://m.example.org/pub/7/os/x86_64"), false, false, true⟩
      777 5 ("") false false rfl rfl⟩

/-- C2 (code bug): once the result queue reaches half its capacity the
committer enters `for result := range resultchan`; since the program never
closes the channel, the drain never terminates and the commit is
unreachable (`none`), for every such queue content — shown in general and
at a concrete queue of 10 buffered results. -/
theorem c2_code_bug :
    (∀ buf : List CheckResult,
      committer_tick ⟨buf, resultchan_closed_by_main⟩
        = if resultchan_cap / 2 ≤ buf.length then none else some [])
    ∧ committer_tick ⟨List.replicate 10 ⟨1, 1, 1700, 200⟩, resultchan_closed_by_main⟩
        = none := by
  constructor
  · intro buf
    unfold committer_tick range_drain resultchan_closed_by_main
    split <;> rfl
  · decide

/-- C3 (counterexample to the claim as stated): an HTTP 200 body whose
timestamp tag is present but whose 20 digits overflow int64; the code
returns outcome 200 with timestamp 0, not the claimed −4. -/
theorem c3_counterexample :
    repository_timestamp_response 200 ("<timestamp>99999999999999999999</timestamp>")
      = (0, 200)
    ∧ find_ts ("<timestamp>99999999999999999999</timestamp>").data
      = some ("99999999999999999999").data
    ∧ parse_int64 ("99999999999999999999").data = none
    ∧ (repository_timestamp_response 200
        ("<timestamp>99999999999999999999</timestamp>")).2 ≠ -4 := by
  refine ⟨by decide, by decide, by decide, by decide⟩

/-- C3 (amended): on an HTTP 200 response the outcome is 200 with the first
parsed timestamp value when the first tag's digits parse as int64; outcome
is −4 exactly when no timestamp tag is present; when a tag is present but
its digits overflow int64, the outcome is 200 with timestamp 0. -/
theorem c3_amended (body : String) :
    (find_ts body.data = none → repository_timestamp_response 200 body = (0, -4))
    ∧ (∀ ds v, find_ts body.data = some ds → parse_int64 ds = some v →
        repository_timestamp_response 200 body = (v, 200))
    ∧ (∀ ds, find_ts body.data = some ds → parse_int64 ds = none →
        repository_timestamp_response 200 body = (0, 200)) := by
  unfold repository_timestamp_response
  rw [if_neg (by norm_num)]
  exact ⟨fun h => by simp only [h], fun ds v h hp => by simp only [h, hp],
    fun ds h hp => by simp only [h, hp]⟩

/-- C3 witness: the amended theorem applied to a parsable body. -/
theorem c3_witness :
    find_ts ("<timestamp>1700</timestamp>").data = some ("1700").data
    ∧ parse_int64 ("1700").data = some 1700
    ∧ repository_timestamp_response 200 ("<timestamp>1700</timestamp>") = (1700, 200) :=
  ⟨by decide, by decide,
    (c3_amended ("<timestamp>1700</timestamp>")).2.1 ("1700").data 1700
      (by decide) (by decide)⟩

/-- C8 (confirmed): a scheduler tick produces tasks only when the task queue
is empty; it produces at most `limit` tasks; every produced task stems from
a Status row with `checked < now − (rescan + jitter)` joined to an enabled
repo; and the selected rows are ordered by `checked` ascending. The
per-tick jitter is the explicit `jitter` parameter. -/
theorem c8_confirmed (queue_len : Nat) (db : DB) (now rescan jitter : Int) (limit : Nat) :
    (queue_len ≠ 0 → scheduler_tick queue_len db now rescan jitter limit = [])
    ∧ (scheduler_tick queue_len db now rescan jitter limit).length ≤ limit
    ∧ (∀ t ∈ find_next_check db now rescan jitter limit,
        ∃ x, x ∈ find_next_rows db now rescan jitter limit ∧ t = task_of_row x
          ∧ x.srow ∈ db.status ∧ x.srow.checked < now - (rescan + jitter)
          ∧ x.repo ∈ db.repos ∧ x.repo.enabled = true ∧ x.mirror ∈ db.mirrors
          ∧ x.mirror.mirror_id = x.srow.mirror_id ∧ x.repo.repo_id = x.srow.repo_id)
    ∧ List.Sorted checkedLE (find_next_rows db now rescan jitter limit) := by
  have hlen : ∀ n : Nat, (find_next_check db now rescan jitter n).length ≤ n := by
    intro n
    unfold find_next_check find_next_rows
    rw [List.length_map, List.length_take]
    exact min_le_left _ _
  refine ⟨?_, ?_, ?_, ?_⟩
  · intro h
    unfold scheduler_tick
    have hb : (queue_len == 0) = false := by simpa using h
    rw [hb]
    rfl
  · unfold scheduler_tick
    by_cases h : (queue_len == 0) = true
    · rw [h]
      simpa using hlen limit
    · rw [Bool.not_eq_true] at h
      rw [h]
      exact Nat.zero_le _
  · intro t ht
    unfold find_next_check at ht
    rcases List.mem_map.mp ht with ⟨x, hx, rfl⟩
    have hx2 : x ∈ List.insertionSort checkedLE (next_joined db now rescan jitter) := by
      unfold find_next_rows at hx
      exact List.take_subset _ _ hx
    rw [List.mem_insertionSort] at hx2
    unfold next_joined at hx2
    rcases List.mem_filterMap.mp hx2 with ⟨s, hs, hfs⟩
    refine ⟨x, hx, rfl, ?_⟩
    cases hm : db.mirrors.find? (fun m => m.mirror_id == s.mirror_id) with
    | none => rw [hm] at hfs; simp at hfs
    | some m =>
      cases hr : db.repos.find? (fun r => r.repo_id == s.repo_id) with
      | none => rw [hm, hr] at hfs; simp at hfs
      | some r =>
        rw [hm, hr] at hfs
        dsimp only [] at hfs
        by_cases hcond : (decide (s.checked < now - (rescan + jitter)) && r.enabled) = true
        · rw [if_pos hcond] at hfs
          rw [Bool.and_eq_true, decide_eq_true_eq] at hcond
          injection hfs with hfs
          subst hfs
          have hmm : m.mirror_id = s.mirror_id := by
            have := List.find?_some hm
            simpa using this
          have hrr : r.repo_id = s.repo_id := by
            have := List.find?_some hr
            simpa using this
          exact ⟨hs, hcond.1, List.mem_of_find?_eq_some hr, hcond.2,
            List.mem_of_find?_eq_some hm, hmm, hrr⟩
        · rw [if_neg hcond] at hfs
          simp at hfs
  · unfold find_next_rows
    exact List.Pairwise.sublist (List.take_sublist _ _)
      (List.sorted_insertionSort checkedLE (next_joined db now rescan jitter))

/-- C8 witness: the first conjunct of the theorem applied at a nonempty
queue, and the task bound evaluated at a concrete database. -/
theorem c8_witness :
    scheduler_tick 1
      ⟨[⟨1, ("m.example.org"), ("/pub"), (""), 1, 1, true, ("EU"), ("DE"), ("BY")⟩],
       [⟨1, 7, ("7"), ("os"), ("x86_64"), false, true⟩],
       [⟨1, 1, 1700, 100, 200⟩]⟩
      5000 600 30 20 = [] :=
  (c8_confirmed 1
      ⟨[⟨1, ("m.example.org"), ("/pub"), (""), 1, 1, true, ("EU"), ("DE"), ("BY")⟩],
       [⟨1, 7, ("7"), ("os"), ("x86_64"), false, true⟩],
       [⟨1, 1, 1700, 100, 200⟩]⟩
      5000 600 30 20).1 (by decide)

/-- C9 (confirmed): a request with a missing or empty arch, release or repo
parameter gets status 400 and a body naming the first missing key in the
order arch, release, repo. -/
theorem c9_confirmed (db : DB) (caching : Bool) (listsize : Nat)
    (cache : List (String × String)) (arch release repo ipversion : String)
    (loc : Location) (rand : Nat → Nat → Int)
    (h : arch = ("") ∨ release = ("") ∨ repo = ("")) :
    (http_handler_root db caching listsize cache arch release repo ipversion loc rand).status
      = 400
    ∧ (http_handler_root db caching listsize cache arch release repo ipversion loc rand).body
      = (if arch = ("") then ("arch not specified\n")
         else if release = ("") then ("release not specified\n")
         else ("repo not specified\n")) := by
  by_cases ha : arch = ("")
  · simp [http_handler_root, handler_error, ha]
  · by_cases hre : release = ("")
    · simp [http_handler_root, handler_error, ha, hre]
    · have hrp : repo = ("") := by tauto
      simp [http_handler_root, handler_error, ha, hre, hrp]

/-- C9 witness: a request missing only `repo` yields 400 with body naming
repo. -/
theorem c9_witness :
    (http_handler_root ⟨[], [], []⟩ true 10 [] ("x86_64") ("8") ("") ("4")
        ⟨true, (""), (""), ("")⟩ (fun _ _ => 0)).status = 400
    ∧ (http_handler_root ⟨[], [], []⟩ true 10 [] ("x86_64") ("8") ("") ("4")
        ⟨true, (""), (""), ("")⟩ (fun _ _ => 0)).body = ("repo not specified\n") := by
  have h := c9_confirmed ⟨[], [], []⟩ true 10 [] ("x86_64") ("8") ("") ("4")
    ⟨true, (""), (""), ("")⟩ (fun _ _ => 0) (Or.inr (Or.inr rfl))
  refine ⟨h.1, ?_⟩
  rw [h.2]
  decide

/-- C4 (counterexample to the claim as stated): for a request whose repo
resolves (id 1) but has zero eligible mirrors, the response is 404, yet the
cache was consulted — one cache lookup is recorded, not zero. -/
theorem c4_counterexample :
    (http_handler_root db4 true 10 [] ("x86_64") ("8") ("BaseOS") ("4")
        ⟨true, ("EU"), ("DE"), ("BY")⟩ (fun _ _ => 0)).status = 404
    ∧ (http_handler_root db4 true 10 [] ("x86_64") ("8") ("BaseOS") ("4")
        ⟨true, ("EU"), ("DE"), ("BY")⟩ (fun _ _ => 0)).lookups = 1
    ∧ ¬ (http_handler_root db4 true 10 [] ("x86_64") ("8") ("BaseOS") ("4")
        ⟨true, ("EU"), ("DE"), ("BY")⟩ (fun _ _ => 0)).lookups = 0 := by
  refine ⟨by decide, by decide, by decide⟩

/-- C4 (amended): when the repo resolves, valid parameters are present and
there is no live cache entry for the request key, a repo with zero eligible
mirrors yields 404 with nothing stored — but the cache is consulted first
when caching is enabled (exactly one lookup is recorded, zero otherwise). -/
theorem c4_amended (db : DB) (caching : Bool) (listsize : Nat)
    (cache : List (String × String)) (arch release repo ipversion : String)
    (loc : Location) (rand : Nat → Nat → Int)
    (ha : arch ≠ ("")) (hre : release ≠ ("")) (hrp : repo ≠ (""))
    (hid : 0 < (get_repo_id db release repo arch).1)
    (hmiss : cache_get cache (request_key db release repo arch ipversion loc) = none)
    (hzero : mirrors_with_repo db (get_repo_id db release repo arch).1 = []) :
    (http_handler_root db caching listsize cache arch release repo ipversion loc rand).status
      = 404
    ∧ (http_handler_root db caching listsize cache arch release repo ipversion loc rand).lookups
      = (if caching then 1 else 0)
    ∧ (http_handler_root db caching listsize cache arch release repo ipversion loc rand).stored
      = none
    ∧ (http_handler_root db caching listsize cache arch release repo ipversion loc rand).cache2
      = cache := by
  unfold http_handler_root
  rw [if_neg ha, if_neg hre, if_neg hrp, if_neg (not_le.mpr hid)]
  by_cases hc : caching = true
  · rw [if_pos hc, hmiss]
    unfold render_and_store
    rw [if_pos hzero, if_pos hc]
    exact ⟨rfl, rfl, rfl, rfl⟩
  · rw [if_neg hc]
    unfold render_and_store
    rw [if_pos hzero, if_neg hc]
    exact ⟨rfl, rfl, rfl, rfl⟩

/-- C4 witness: the amended theorem applied to a concrete database with a
resolving repo and no mirrors, caching enabled, empty cache. -/
theorem c4_witness :
    (http_handler_root db4 true 10 [] ("x86_64") ("8") ("BaseOS") ("4")
        ⟨true, ("EU"), ("DE"), ("BY")⟩ (fun _ _ => 0)).status = 404
    ∧ (http_handler_root db4 true 10 [] ("x86_64") ("8") ("BaseOS") ("4")
        ⟨true, ("EU"), ("DE"), ("BY")⟩ (fun _ _ => 0)).lookups = 1
    ∧ (http_handler_root db4 true 10 [] ("x86_64") ("8") ("BaseOS") ("4")
        ⟨true, ("EU"), ("DE"), ("BY")⟩ (fun _ _ => 0)).stored = none
    ∧ (http_handler_root db4 true 10 [] ("x86_64") ("8") ("BaseOS") ("4")
        ⟨true, ("EU"), ("DE"), ("BY")⟩ (fun _ _ => 0)).cache2 = [] :=
  c4_amended db4 true 10 [] ("x86_64") ("8") ("BaseOS") ("4")
    ⟨true, ("EU"), ("DE"), ("BY")⟩ (fun _ _ => 0)
    (by decide) (by decide) (by decide) (by decide) (by decide) (by decide)

/-- C6 (counterexample to the claim as stated): a repo with major_release 8
whose `path` column is "centos8" (matching neither `^7` nor `^8`); one
mirror is selected, yet the rendered body is empty — no URL line with `/os`
is produced, although the claim demands one for major_release 8. -/
theorem c6_counterexample :
    db6.repos.map Repo.major_release = [8]
    ∧ (http_handler_root db6 true 10 [] ("x86_64") ("8") ("BaseOS") ("4")
        ⟨true, ("EU"), ("DE"), ("BY")⟩ (fun _ _ => 0)).selected = some [1]
    ∧ (http_handler_root db6 true 10 [] ("x86_64") ("8") ("BaseOS") ("4")
        ⟨true, ("EU"), ("DE"), ("BY")⟩ (fun _ _ => 0)).rendered = some ("")
    ∧ (http_handler_root db6 true 10 [] ("x86_64") ("8") ("BaseOS") ("4")
        ⟨true, ("EU"), ("DE"), ("BY")⟩ (fun _ _ => 0)).body = ("") := by
  refine ⟨by decide, by decide, by decide, by decide⟩

/-- C6 (amended): for a selected mirror, the rendered line joins protocol,
host, the basedir chosen by the altarch flag, the repo path, repo and arch
with slashes and collapses duplicate separators; `/os` is appended exactly
when the repo path begins with the character 8; a path beginning with
neither 7 nor 8 renders no line at all. -/
theorem c6_amended (db : DB) (m : Mirror) (release repo arch : String) (alt : Bool)
    (hm : mirror_rows db [m.mirror_id] = [m]) :
    (starts7 release = true →
      full_mirror_urls db [m.mirror_id] release repo arch alt
        = collapseStr (url_line m.name (if alt then m.basedir_altarch else m.basedir)
            release repo arch ++ ("/") ++ ("\n")))
    ∧ (starts8 release = true →
      full_mirror_urls db [m.mirror_id] release repo arch alt
        = collapseStr (url_line m.name (if alt then m.basedir_altarch else m.basedir)
            release repo arch ++ ("/os/") ++ ("\n")))
    ∧ (starts7 release = false → starts8 release = false →
      full_mirror_urls db [m.mirror_id] release repo arch alt = ("")) := by
  have h78 : starts7 release = true → starts8 release = false := by
    unfold starts7 starts8
    intro h7
    rcases hh : release.data.head? with _ | c
    · rw [hh] at h7
      exact absurd h7 (by decide)
    · rw [hh] at h7
      have hc : c = '7' := by simpa using h7
      subst hc
      decide
  have hmain : ∀ s7 s8 : Bool, starts7 release = s7 → starts8 release = s8 →
      full_mirror_urls db [m.mirror_id] release repo arch alt
        = collapseStr
          (if s8 then
            (if s7 then
              ("") ++ url_line m.name (if alt then m.basedir_altarch else m.basedir)
                release repo arch ++ ("/") ++ ("\n")
             else (""))
              ++ url_line m.name (if alt then m.basedir_altarch else m.basedir)
                release repo arch ++ ("/os/") ++ ("\n")
           else
            (if s7 then
              ("") ++ url_line m.name (if alt then m.basedir_altarch else m.basedir)
                release repo arch ++ ("/") ++ ("\n")
             else (""))) := by
    intro s7 s8 h7 h8
    unfold full_mirror_urls
    rw [hm]
    simp only [List.foldl_cons, List.foldl_nil, h7, h8]
  have hnil : (("") : String) ++ url_line m.name (if alt then m.basedir_altarch else m.basedir)
      release repo arch = url_line m.name (if alt then m.basedir_altarch else m.basedir)
      release repo arch := by
    cases hu : url_line m.name (if alt then m.basedir_altarch else m.basedir) release repo arch
    rfl
  refine ⟨?_, ?_, ?_⟩
  · intro h7
    rw [hmain true false h7 (h78 h7), if_neg (show ¬(false = true) by decide),
      if_pos (show true = true from rfl), hnil]
  · intro h8
    by_cases h7 : starts7 release = true
    · exact absurd h8 (by rw [h78 h7]; decide)
    · rw [Bool.not_eq_true] at h7
      rw [hmain false true h7 h8, if_pos (show true = true from rfl),
        if_neg (show ¬(false = true) by decide), hnil]
  · intro h7 h8
    rw [hmain false false h7 h8, if_neg (show ¬(false = true) by decide),
      if_neg (show ¬(false = true) by decide)]
    rfl

/-- C6 witness: the amended theorem applied to a concrete mirror and a path
beginning with 8, yielding the collapsed URL line with `/os`. -/
theorem c6_witness :
    full_mirror_urls db6b [m6.mirror_id] ("8") ("BaseOS") ("x86_64") false
      = collapseStr (url_line m6.name m6.basedir ("8") ("BaseOS") ("x86_64")
          ++ ("/os/") ++ ("\n")) :=
  (c6_amended db6b m6 ("8") ("BaseOS") ("x86_64") false (by decide)).2.1 (by decide)

/-- Branch analysis of http_handler_root: every run is an early error
response, a cache hit, or a render_and_store outcome. -/
theorem handler_shapes (db : DB) (caching : Bool) (listsize : Nat)
    (cache : List (String × String)) (arch release repo ipversion : String)
    (loc : Location) (rand : Nat → Nat → Int) :
    (∃ st b, http_handler_root db caching listsize cache arch release repo ipversion loc rand
        = handler_error st b cache)
    ∨ (∃ b, http_handler_root db caching listsize cache arch release repo ipversion loc rand
        = { status := 200, body := b, cache2 := cache, lookups := 1,
            selected := none, rendered := none, stored := none })
    ∨ (∃ lk, http_handler_root db caching listsize cache arch release repo ipversion loc rand
        = render_and_store db caching listsize cache lk
            (get_repo_id db release repo arch).1 (get_repo_id db release repo arch).2.1
            repo arch (get_repo_id db release repo arch).2.2
            (request_key db release repo arch ipversion loc) loc ipversion rand) := by
  unfold http_handler_root
  by_cases h1 : arch = ("")
  · rw [if_pos h1]
    exact Or.inl ⟨400, _, rfl⟩
  · rw [if_neg h1]
    by_cases h2 : release = ("")
    · rw [if_pos h2]
      exact Or.inl ⟨400, _, rfl⟩
    · rw [if_neg h2]
      by_cases h3 : repo = ("")
      · rw [if_pos h3]
        exact Or.inl ⟨400, _, rfl⟩
      · rw [if_neg h3]
        by_cases h4 : (get_repo_id db release repo arch).1 ≤ 0
        · rw [if_pos h4]
          exact Or.inl ⟨404, _, rfl⟩
        · rw [if_neg h4]
          by_cases h5 : caching = true
          · rw [if_pos h5]
            cases h6 : cache_get cache (request_key db release repo arch ipversion loc) with
            | some b => exact Or.inr (Or.inl ⟨b, rfl⟩)
            | none => exact Or.inr (Or.inr ⟨1, rfl⟩)
          · rw [if_neg h5]
            exact Or.inr (Or.inr ⟨0, rfl⟩)

/-- C7 (confirmed): with caching enabled, a response is stored iff a body was
rendered and is non-empty; every store uses the request's composite cache
key and TTL 3600 and prepends exactly that entry; runs that store nothing
leave the cache unchanged; non-empty-body cache contents are preserved by
every run; and a repo resolving to zero mirrors stores nothing. -/
theorem c7_confirmed (db : DB) (listsize : Nat) (cache : List (String × String))
    (arch release repo ipversion : String) (loc : Location) (rand : Nat → Nat → Int) :
    (∀ k b ttl,
      (http_handler_root db true listsize cache arch release repo ipversion loc rand).stored
          = some (k, b, ttl) →
        ttl = 3600 ∧ b ≠ ("")
        ∧ (http_handler_root db true listsize cache arch release repo ipversion loc rand).rendered
            = some b
        ∧ k = cachekey (get_repo_id db release repo arch).1 ipversion
            loc.continent loc.country loc.region
        ∧ (http_handler_root db true listsize cache arch release repo ipversion loc rand).cache2
            = (k, b) :: cache)
    ∧ (∀ b,
      (http_handler_root db true listsize cache arch release repo ipversion loc rand).rendered
          = some b → b ≠ ("") →
        (http_handler_root db true listsize cache arch release repo ipversion loc rand).stored
          = some (cachekey (get_repo_id db release repo arch).1 ipversion
              loc.continent loc.country loc.region, b, 3600))
    ∧ ((http_handler_root db true listsize cache arch release repo ipversion loc rand).stored
          = none →
        (http_handler_root db true listsize cache arch release repo ipversion loc rand).cache2
          = cache)
    ∧ ((∀ kv ∈ cache, kv.2 ≠ ("")) →
        ∀ kv ∈ (http_handler_root db true listsize cache arch release repo ipversion loc rand).cache2,
          kv.2 ≠ (""))
    ∧ (mirrors_with_repo db (get_repo_id db release repo arch).1 = [] →
        (http_handler_root db true listsize cache arch release repo ipversion loc rand).stored
            = none
        ∧ (http_handler_root db true listsize cache arch release repo ipversion loc rand).cache2
            = cache) := by
  rcases handler_shapes db true listsize cache arch release repo ipversion loc rand with
    ⟨st, b0, hout⟩ | ⟨b0, hout⟩ | ⟨lk, hout⟩
  · rw [hout]
    unfold handler_error
    exact ⟨fun k b ttl h => by simp at h, fun b hr => by simp at hr,
      fun _ => rfl, fun hinv kv hkv => hinv kv hkv, fun _ => ⟨rfl, rfl⟩⟩
  · rw [hout]
    exact ⟨fun k b ttl h => by simp at h, fun b hr => by simp at hr,
      fun _ => rfl, fun hinv kv hkv => hinv kv hkv, fun _ => ⟨rfl, rfl⟩⟩
  · rw [hout]
    unfold render_and_store
    by_cases hz : mirrors_with_repo db (get_repo_id db release repo arch).1 = []
    · rw [if_pos hz]
      exact ⟨fun k b ttl h => by simp at h, fun b hr => by simp at hr,
        fun _ => rfl, fun hinv kv hkv => hinv kv hkv, fun _ => ⟨rfl, rfl⟩⟩
    · rw [if_neg hz]
      by_cases hR : rendered_response db listsize (get_repo_id db release repo arch).1
          (get_repo_id db release repo arch).2.1 repo arch
          (get_repo_id db release repo arch).2.2 loc ipversion rand = ("")
      · rw [if_neg (by simp [hR])]
        refine ⟨fun k b ttl h => by simp at h, ?_, fun _ => rfl,
          fun hinv kv hkv => hinv kv hkv, fun hz2 => absurd hz2 hz⟩
        intro b hr hne
        have hb : b = rendered_response db listsize (get_repo_id db release repo arch).1
            (get_repo_id db release repo arch).2.1 repo arch
            (get_repo_id db release repo arch).2.2 loc ipversion rand := by
          have := hr
          simp only [Option.some.injEq] at this
          exact this.symm
        rw [hb, hR] at hne
        exact absurd rfl hne
      · rw [if_pos (by simp [hR])]
        refine ⟨?_, ?_, ?_, ?_, fun hz2 => absurd hz2 hz⟩
        · intro k b ttl h
          simp only [Option.some.injEq, Prod.mk.injEq] at h
          obtain ⟨hk, hb, httl⟩ := h
          subst hk
          subst httl
          subst hb
          exact ⟨rfl, hR, rfl, rfl, rfl⟩
        · intro b hr hne
          have hb : rendered_response db listsize (get_repo_id db release repo arch).1
              (get_repo_id db release repo arch).2.1 repo arch
              (get_repo_id db release repo arch).2.2 loc ipversion rand = b := by
            simpa using hr
          rw [← hb]
          rfl
        · intro h
          simp at h
        · intro hinv kv hkv
          rcases List.mem_cons.mp hkv with h | h
          · rw [h]
            exact hR
          · exact hinv kv h

/-- C7 witness: a concrete run with one mirror renders a non-empty body and
stores it under the composite key with TTL 3600. -/
theorem c7_witness :
    (http_handler_root db7 true 10 [] ("x86_64") ("8") ("BaseOS") ("4")
        ⟨true, ("EU"), ("DE"), ("BY")⟩ (fun _ _ => 0)).stored
      = some (cachekey (get_repo_id db7 ("8") ("BaseOS") ("x86_64")).1 ("4")
          ("EU") ("DE") ("BY"),
        ("http://m.example.org/pub/8/BaseOS/x86_64/os/\n"), 3600) :=
  (c7_confirmed db7 10 [] ("x86_64") ("8") ("BaseOS") ("4")
      ⟨true, ("EU"), ("DE"), ("BY")⟩ (fun _ _ => 0)).2.1
    ("http://m.example.org/pub/8/BaseOS/x86_64/os/\n") (by decide) (by decide)

/-- C10 (confirmed): the separator-free cache key is not injective — the
tuples (1, 4, EU, US, ∅) and (1, 4, EU, ∅, US) differ only in which field
holds US yet produce the same key — and consequently, in a concrete run, a
client at the first location populates the cache and a client at the second
location is served the first client's cached body (a cache hit with no
rendering). -/
theorem c10_confirmed :
    cachekey 1 ("4") ("EU") ("US") ("") = cachekey 1 ("4") ("EU") ("") ("US")
    ∧ ((("US"), ("")) : String × String) ≠ ((""), ("US"))
    ∧ (http_handler_root db10 true 10 [] ("x86_64") ("8") ("BaseOS") ("4") loc10a
        (fun _ _ => 0)).stored.isSome = true
    ∧ (http_handler_root db10 true 10
        (http_handler_root db10 true 10 [] ("x86_64") ("8") ("BaseOS") ("4") loc10a
          (fun _ _ => 0)).cache2
        ("x86_64") ("8") ("BaseOS") ("4") loc10b (fun _ _ => 0)).lookups = 1
    ∧ (http_handler_root db10 true 10
        (http_handler_root db10 true 10 [] ("x86_64") ("8") ("BaseOS") ("4") loc10a
          (fun _ _ => 0)).cache2
        ("x86_64") ("8") ("BaseOS") ("4") loc10b (fun _ _ => 0)).rendered = none
    ∧ (http_handler_root db10 true 10
        (http_handler_root db10 true 10 [] ("x86_64") ("8") ("BaseOS") ("4") loc10a
          (fun _ _ => 0)).cache2
        ("x86_64") ("8") ("BaseOS") ("4") loc10b (fun _ _ => 0)).body
      = (http_handler_root db10 true 10 [] ("x86_64") ("8") ("BaseOS") ("4") loc10a
          (fun _ _ => 0)).body
    ∧ (http_handler_root db10 true 10 [] ("x86_64") ("8") ("BaseOS") ("4") loc10a
        (fun _ _ => 0)).body ≠ ("") := by
  refine ⟨by decide, by decide, by decide, by decide, by decide, by decide, by decide⟩

/-- A tier-1 match is in particular a tier-3 match. -/
theorem tier1cond_tier3 {loc : Location} {ipv : String} {m : Mirror}
    (h : tier1cond loc ipv m = true) : tier3cond loc ipv m = true := by
  unfold tier1cond at h
  unfold tier3cond
  simp only [Bool.and_eq_true] at h ⊢
  exact ⟨⟨h.1.1.1.1, h.1.2⟩, h.2⟩

/-- A tier-2 match is in particular a tier-3 match. -/
theorem tier2cond_tier3 {loc : Location} {ipv : String} {m : Mirror}
    (h : tier2cond loc ipv m = true) : tier3cond loc ipv m = true := by
  unfold tier2cond at h
  unfold tier3cond
  simp only [Bool.and_eq_true] at h ⊢
  exact ⟨⟨h.1.1.1, h.1.2⟩, h.2⟩

/-- Every row of the tier union stems from a candidate mirror matching the
tier named by its priority. -/
theorem tier_rows_mem {db : DB} {loc : Location} {ipversion : String}
    {mirrors0 : List Nat} {rand : Nat → Nat → Int} {r : TierRow}
    (hr : r ∈ tier_rows db loc ipversion mirrors0 rand) :
    ∃ m, m ∈ db.mirrors ∧ mirrors0.contains m.mirror_id = true ∧ r.mid = m.mirror_id
      ∧ ((r.prio = 1 ∧ tier1cond loc ipversion m = true)
        ∨ (r.prio = 2 ∧ tier2cond loc ipversion m = true)
        ∨ (r.prio = 3 ∧ tier3cond loc ipversion m = true)) := by
  simp only [tier_rows] at hr
  rcases List.mem_append.mp hr with h12 | h3
  · rcases List.mem_append.mp h12 with h1 | h2
    · rcases List.mem_map.mp h1 with ⟨m, hm, rfl⟩
      rcases List.mem_filter.mp hm with ⟨hme, hcond⟩
      rcases List.mem_filter.mp hme with ⟨hmm, hcont⟩
      exact ⟨m, hmm, hcont, rfl, Or.inl ⟨rfl, hcond⟩⟩
    · rcases List.mem_map.mp h2 with ⟨m, hm, rfl⟩
      rcases List.mem_filter.mp hm with ⟨hme, hcond⟩
      rcases List.mem_filter.mp hme with ⟨hmm, hcont⟩
      exact ⟨m, hmm, hcont, rfl, Or.inr (Or.inl ⟨rfl, hcond⟩)⟩
  · rcases List.mem_map.mp h3 with ⟨m, hm, rfl⟩
    rcases List.mem_filter.mp hm with ⟨hme, hcond⟩
    rcases List.mem_filter.mp hme with ⟨hmm, hcont⟩
    exact ⟨m, hmm, hcont, rfl, Or.inr (Or.inr ⟨rfl, hcond⟩)⟩

/-- C5 (confirmed): when narrowing runs, the returned list holds at most
`limit` entries, every returned id belongs to a candidate, enabled,
IP-version-matching mirror of the client's continent (no backfill from
non-matching mirrors), and when some candidate matches tier 1, every
occurrence of a mirror that does not match tier 1 is preceded by an
occurrence of each tier-1 candidate mirror. -/
theorem c5_confirmed (db : DB) (loc : Location) (ipversion : String)
    (mirrors0 : List Nat) (limit : Nat) (rand : Nat → Nat → Int)
    (hnd : (db.mirrors.map Mirror.mirror_id).Nodup)
    (mx my : Mirror) (hmx : mx ∈ db.mirrors) (hmy : my ∈ db.mirrors)
    (hcx : mirrors0.contains mx.mirror_id = true)
    (h1x : tier1cond loc ipversion mx = true)
    (h1y : tier1cond loc ipversion my = false) :
    (nearby_mirrors db loc ipversion mirrors0 limit rand).length ≤ limit
    ∧ (∀ i ∈ nearby_mirrors db loc ipversion mirrors0 limit rand,
        ∃ m, m ∈ db.mirrors ∧ m.mirror_id = i ∧ mirrors0.contains m.mirror_id = true
          ∧ tier3cond loc ipversion m = true)
    ∧ (∀ j, (nearby_mirrors db loc ipversion mirrors0 limit rand).get? j
          = some my.mirror_id →
        ∃ i, i < j ∧ (nearby_mirrors db loc ipversion mirrors0 limit rand).get? i
          = some mx.mirror_id) := by
  have hlen : (nearby_mirrors db loc ipversion mirrors0 limit rand).length ≤ limit := by
    unfold nearby_mirrors
    rw [List.length_map, List.length_take]
    exact min_le_left _ _
  refine ⟨hlen, ?_, ?_⟩
  · intro i hi
    unfold nearby_mirrors at hi
    rcases List.mem_map.mp hi with ⟨r, hr, rfl⟩
    have hr2 : r ∈ List.insertionSort rowLE (tier_rows db loc ipversion mirrors0 rand) :=
      List.take_subset _ _ hr
    rw [List.mem_insertionSort] at hr2
    rcases tier_rows_mem hr2 with ⟨m, hm, hcont, hmid, hcase⟩
    refine ⟨m, hm, hmid.symm, hcont, ?_⟩
    rcases hcase with ⟨_, h⟩ | ⟨_, h⟩ | ⟨_, h⟩
    · exact tier1cond_tier3 h
    · exact tier2cond_tier3 h
    · exact h
  · intro j hj
    have hsorted : List.Sorted rowLE
        (List.insertionSort rowLE (tier_rows db loc ipversion mirrors0 rand)) :=
      List.sorted_insertionSort rowLE (tier_rows db loc ipversion mirrors0 rand)
    have hnb : nearby_mirrors db loc ipversion mirrors0 limit rand
        = ((List.insertionSort rowLE (tier_rows db loc ipversion mirrors0 rand)).take
            limit).map TierRow.mid := rfl
    rw [hnb] at hj
    rw [List.get?_map] at hj
    rcases Option.map_eq_some'.mp hj with ⟨row_j, hrowj, hmidj⟩
    have hjlt : j < ((List.insertionSort rowLE
        (tier_rows db loc ipversion mirrors0 rand)).take limit).length := by
      rcases List.get?_eq_some.mp hrowj with ⟨h, _⟩
      exact h
    have hjlim : j < limit := by
      rw [List.length_take] at hjlt
      exact lt_of_lt_of_le hjlt (min_le_left _ _)
    have hSj : (List.insertionSort rowLE (tier_rows db loc ipversion mirrors0 rand)).get? j
        = some row_j := by
      rw [← List.get?_take hjlim]
      exact hrowj
    have hrow_j_mem : row_j ∈ tier_rows db loc ipversion mirrors0 rand := by
      have hmem := List.get?_mem hSj
      rwa [List.mem_insertionSort] at hmem
    have hprioj : 2 ≤ row_j.prio := by
      rcases tier_rows_mem hrow_j_mem with ⟨m, hm, hcont, hmid, hcase⟩
      rcases hcase with ⟨hp, hc⟩ | ⟨hp, _⟩ | ⟨hp, _⟩
      · exfalso
        have hmeq : m = my := by
          apply List.inj_on_of_nodup_map hnd hm hmy
          rw [← hmid, hmidj]
        rw [hmeq, h1y] at hc
        exact Bool.false_ne_true hc
      · omega
      · omega
    have hr1 : TierRow.mk mx.mirror_id 1 (rand 1 mx.mirror_id)
        ∈ tier_rows db loc ipversion mirrors0 rand := by
      simp only [tier_rows]
      refine List.mem_append.mpr (Or.inl (List.mem_append.mpr (Or.inl ?_)))
      refine List.mem_map.mpr ⟨mx, ?_, rfl⟩
      exact List.mem_filter.mpr ⟨List.mem_filter.mpr ⟨hmx, hcx⟩, h1x⟩
    have hr1S : TierRow.mk mx.mirror_id 1 (rand 1 mx.mirror_id)
        ∈ List.insertionSort rowLE (tier_rows db loc ipversion mirrors0 rand) := by
      rw [List.mem_insertionSort]
      exact hr1
    rcases List.mem_iff_get?.mp hr1S with ⟨i, hSi⟩
    have hilt : i < (List.insertionSort rowLE (tier_rows db loc ipversion mirrors0 rand)).length := by
      rcases List.get?_eq_some.mp hSi with ⟨h, _⟩
      exact h
    have hjltS : j < (List.insertionSort rowLE (tier_rows db loc ipversion mirrors0 rand)).length := by
      rcases List.get?_eq_some.mp hSj with ⟨h, _⟩
      exact h
    have e1 : (List.insertionSort rowLE (tier_rows db loc ipversion mirrors0 rand)).get
        ⟨j, hjltS⟩ = row_j := by
      rcases List.get?_eq_some.mp hSj with ⟨h, e⟩
      exact e
    have e2 : (List.insertionSort rowLE (tier_rows db loc ipversion mirrors0 rand)).get
        ⟨i, hilt⟩ = TierRow.mk mx.mirror_id 1 (rand 1 mx.mirror_id) := by
      rcases List.get?_eq_some.mp hSi with ⟨h, e⟩
      exact e
    have hp1 : (TierRow.mk mx.mirror_id 1 (rand 1 mx.mirror_id)).prio = 1 := rfl
    have hij : i < j := by
      by_contra hle
      push_neg at hle
      rcases eq_or_lt_of_le hle with heq | hlt
      · rw [heq] at hSj
        rw [hSj] at hSi
        have hrj : row_j = TierRow.mk mx.mirror_id 1 (rand 1 mx.mirror_id) := by
          injection hSi
        rw [hrj, hp1] at hprioj
        omega
      · have hpair := List.pairwise_iff_get.mp hsorted ⟨j, hjltS⟩ ⟨i, hilt⟩ hlt
        rw [e1, e2] at hpair
        unfold rowLE at hpair
        rw [hp1] at hpair
        rcases hpair with h | ⟨h, _⟩ <;> omega
    refine ⟨i, hij, ?_⟩
    rw [hnb, List.get?_map, List.get?_take (lt_trans hij hjlim), hSi]
    rfl

/-- C5 witness: the theorem applied to a concrete two-mirror database with a
tier-1 and a tier-3-only candidate. -/
theorem c5_witness :
    (nearby_mirrors db5 loc5 ("4") [1, 2] 1 (fun _ _ => 0)).length ≤ 1
    ∧ (∀ i ∈ nearby_mirrors db5 loc5 ("4") [1, 2] 1 (fun _ _ => 0),
        ∃ m, m ∈ db5.mirrors ∧ m.mirror_id = i ∧ ([1, 2] : List Nat).contains m.mirror_id = true
          ∧ tier3cond loc5 ("4") m = true)
    ∧ (∀ j, (nearby_mirrors db5 loc5 ("4") [1, 2] 1 (fun _ _ => 0)).get? j
          = some my5.mirror_id →
        ∃ i, i < j ∧ (nearby_mirrors db5 loc5 ("4") [1, 2] 1 (fun _ _ => 0)).get? i
          = some mx5.mirror_id) :=
  c5_confirmed db5 loc5 ("4") [1, 2] 1 (fun _ _ => 0) (by decide) mx5 my5
    (by decide) (by decide) (by decide) (by decide) (by decide)
